import Mathlib

/-!
Shallow embedding of `starport/services/network/join.go` (package `network`).

The Go code is client-side glue: it builds "add account" / "add validator"
request messages, consults remote queries to avoid duplicates, and broadcasts
the messages as one transaction while emitting status events.

External collaborators (remote query clients, the local-genesis file check,
the transaction broadcaster and the JSON codec) are modelled as an `Env` of
oracles: each oracle returns `Except String _`, mirroring Go's `(value, error)`
pairs.  Event emission and broadcast calls are modelled by explicit logs
returned alongside the result.
-/

namespace Network

/-- Status of an emitted event (`events.StatusOngoing` / `events.StatusDone`). -/
inductive Status where
  | ongoing
  | done
deriving DecidableEq, Repr

/-- An emitted status event, `events.New(status, message)`. -/
structure Event where
  status : Status
  message : String
deriving DecidableEq, Repr

/-- A coin amount (`sdk.Coin`). -/
structure Coin where
  denom : String
  amount : Nat
deriving DecidableEq, Repr

/-- `sdk.NewCoins` applied to a single coin: zero-amount coins are dropped. -/
def NewCoins (c : Coin) : List Coin :=
  if c.amount = 0 then [] else [c]

/-- The two SPN launch messages built by the join flow:
`launchtypes.NewMsgRequestAddAccount` and `launchtypes.NewMsgRequestAddValidator`,
with fields in the order of the Go constructor calls. -/
inductive Msg where
  | requestAddAccount (address : String) (launchID : Nat) (coins : List Coin)
  | requestAddValidator (valAddress : String) (launchID : Nat)
      (gentx : List Nat) (consPubKey : List Nat)
      (selfDelegation : Coin) (peer : String)
deriving DecidableEq, Repr

/-- The tagged union `launchtypes.RequestContent.Content` of a pending request.
`other` stands for content variants the join code ignores. -/
inductive RequestContent where
  | genesisAccount (address : String)
  | vestingAccount (address : String)
  | genesisValidator (address : String)
  | other
deriving DecidableEq, Repr

/-- A pending request (`launchtypes.Request`); the join code only reads
`request.Content.Content`, flattened here to one field. -/
structure Request where
  content : RequestContent
deriving DecidableEq, Repr

/-- A broadcast response (`BroadcastTx` result); the join code only requires
that it be JSON-serializable. -/
structure Response where
  txHash : String
deriving DecidableEq, Repr

/-- Protobuf JSON rendering of a response: a JSON object, hence nonempty.
The codec call itself may fail; that failure is modelled by
`Env.marshalJSONErr`. -/
def jsonOfResponse (r : Response) : String :=
  "\x7b\"txhash\":\"" ++ r.txHash ++ "\"\x7d"

/-- External collaborators of the join flow.  Each query oracle returns
`.ok` when the remote call succeeds (record found / list fetched) and
`.error e` when it fails — for the point lookups a "not found" outcome is
also an error, exactly as the gRPC clients behave in the Go code.
`checkGenesisAddress` models `CheckGenesisAddress(chainHome, address)`
(defined outside this file in the repository): whether the address is already
present in the local genesis file. -/
structure Env where
  genesisValidatorQuery : Nat → String → Except String Unit
  vestingAccountQuery : Nat → String → Except String Unit
  genesisAccountQuery : Nat → String → Except String Unit
  requestAll : Nat → Except String (List Request)
  checkGenesisAddress : String → String → Except String Bool
  broadcastTx : String → List Msg → Except String Response
  marshalJSONErr : Response → Option String

/-- The builder's signer account; `address` models
`b.account.Address(SPNAddressPrefix)` and `name` models `b.account.Name`. -/
structure Account where
  name : String
  address : String

/-- The `Builder` receiver: its signer account plus its external
collaborators. -/
structure Builder where
  account : Account
  env : Env

/-- Embeds `hasValidator`: a finalized genesis-validator point lookup; the
lookup reports existence exactly when the query returned no error. -/
def hasValidator (b : Builder) (launchID : Nat) (address : String) : Bool :=
  match b.env.genesisValidatorQuery launchID address with
  | .ok _ => true
  | .error _ => false

/-- Embeds `hasAccount`: vesting-account lookup first, then genesis-account
lookup; existence is reported exactly when one of the queries returned no
error. -/
def hasAccount (b : Builder) (launchID : Nat) (address : String) : Bool :=
  match b.env.vestingAccountQuery launchID address with
  | .ok _ => true
  | .error _ =>
    match b.env.genesisAccountQuery launchID address with
    | .ok _ => true
    | .error _ => false

/-- Embeds `fetchRequests`: the pending-request list fetch (`RequestAll`). -/
def fetchRequests (b : Builder) (launchID : Nat) : Except String (List Request) :=
  b.env.requestAll launchID

/-- Whether a pending request is a genesis-account or vesting-account request
for the given address (the two cases of the `switch` in `CheckAccountExist`). -/
def isAccountFor (address : String) (r : Request) : Bool :=
  match r.content with
  | .genesisAccount a => a == address
  | .vestingAccount a => a == address
  | _ => false

/-- Whether a pending request is a genesis-validator request for the given
address (the `GetGenesisValidator` scan in `CheckValidatorExist`). -/
def isValidatorFor (address : String) (r : Request) : Bool :=
  match r.content with
  | .genesisValidator a => a == address
  | _ => false

/-- Embeds `CheckAccountExist`: finalized lookup first; on miss, fetch the
pending-request list and scan it for a matching account/vesting request. -/
def CheckAccountExist (b : Builder) (launchID : Nat) (address : String) :
    Except String Bool :=
  if hasAccount b launchID address then .ok true
  else
    match fetchRequests b launchID with
    | .error e => .error e
    | .ok requests => .ok (requests.any (isAccountFor address))

/-- Embeds `CheckValidatorExist`: finalized lookup first; on miss, fetch the
pending-request list and scan it for a matching validator request. -/
def CheckValidatorExist (b : Builder) (launchID : Nat) (address : String) :
    Except String Bool :=
  if hasValidator b launchID address then .ok true
  else
    match fetchRequests b launchID with
    | .error e => .error e
    | .ok requests => .ok (requests.any (isValidatorFor address))

/-- Embeds `CreateValidatorRequestMsg`: fails with a conflict error when the
validator already exists, otherwise builds the add-validator message. -/
def CreateValidatorRequestMsg (b : Builder) (launchID : Nat)
    (peer valAddress : String) (gentx consPubKey : List Nat)
    (selfDelegation : Coin) : Except String Msg :=
  match CheckValidatorExist b launchID valAddress with
  | .error e => .error e
  | .ok true => .error ("validator already exist: " ++ valAddress)
  | .ok false =>
    .ok (Msg.requestAddValidator valAddress launchID gentx consPubKey
      selfDelegation peer)

/-- Embeds `CreateAccountRequestMsg`: returns the optional account message
(`nil` in Go is `none`) together with the list of emitted events, or an error
together with the events emitted before the failure. -/
def CreateAccountRequestMsg (b : Builder) (chainHome : String)
    (customGentx : Bool) (launchID : Nat) (amount : Coin) :
    Except String (Option Msg) × List Event :=
  let address := b.account.address
  let ev0 := Event.mk .ongoing ("Verifying account already exists " ++ address)
  if customGentx then
    (.ok (some (Msg.requestAddAccount address launchID (NewCoins amount))),
      [ev0, Event.mk .done "Account message created"])
  else
    match b.env.checkGenesisAddress chainHome address with
    | .error e => (.error e, [ev0])
    | .ok true => (.ok none, [ev0, Event.mk .done "Account message not created"])
    | .ok false =>
      match CheckAccountExist b launchID address with
      | .error e => (.error e, [ev0])
      | .ok true =>
        (.ok none, [ev0, Event.mk .done "Account message not created"])
      | .ok false =>
        (.ok (some (Msg.requestAddAccount address launchID (NewCoins amount))),
          [ev0, Event.mk .done "Account message created"])

/-- Embeds `Join`: builds the optional account message and the validator
message, broadcasts them as one transaction, and serializes the response.
Returns the Go result `(string, error)` as an `Except`, together with the
list of emitted events and the log of broadcast calls (each entry the message
batch of one `BroadcastTx` call). -/
def Join (b : Builder) (launchID : Nat) (chainHome peer valAddress : String)
    (customGentx : Bool) (gentx consPubKey : List Nat)
    (selfDelegation amount : Coin) :
    Except String String × List Event × List (List Msg) :=
  let acc := CreateAccountRequestMsg b chainHome customGentx launchID amount
  match acc.1 with
  | .error e => (.error e, acc.2, [])
  | .ok accOpt =>
    match CreateValidatorRequestMsg b launchID peer valAddress gentx
        consPubKey selfDelegation with
    | .error e => (.error e, acc.2, [])
    | .ok validatorMsg =>
      let messages := accOpt.toList ++ [validatorMsg]
      let events := acc.2 ++ [Event.mk .ongoing "Broadcasting transactions"]
      match b.env.broadcastTx b.account.name messages with
      | .error e => (.error e, events, [messages])
      | .ok response =>
        match b.env.marshalJSONErr response with
        | some e => (.error e, events, [messages])
        | none =>
          (.ok (jsonOfResponse response),
            events ++ [Event.mk .done "Transactions broadcasted"], [messages])

/-! Concrete environments used to instantiate the theorems below. -/

/-- A point-lookup oracle that always succeeds (record found). -/
def okUnit : Nat → String → Except String Unit := fun _ _ => .ok ()

/-- A point-lookup oracle that always fails with the given error. -/
def errQuery (e : String) : Nat → String → Except String Unit :=
  fun _ _ => .error e

/-- An environment for a fresh address: every point lookup misses, the
pending list is empty, the address is absent from local genesis, and
broadcast and serialization succeed. -/
def envFresh : Env :=
  ⟨errQuery "not found", errQuery "not found", errQuery "not found",
    fun _ => .ok [], fun _ _ => .ok false, fun _ _ => .ok ⟨"ABCD"⟩,
    fun _ => none⟩

/-- A builder over `envFresh`. -/
def bFresh : Builder := ⟨⟨"alice", "spn1me"⟩, envFresh⟩

/-- A builder whose finalized point lookups all report existence. -/
def bAllOk : Builder :=
  ⟨⟨"alice", "spn1me"⟩,
    { envFresh with
        genesisValidatorQuery := okUnit
        vestingAccountQuery := okUnit
        genesisAccountQuery := okUnit }⟩

/-- A builder whose validator exists in the finalized store and whose
account address is already in the local genesis file. -/
def bVal : Builder :=
  ⟨⟨"alice", "spn1me"⟩,
    { envFresh with
        genesisValidatorQuery := okUnit
        checkGenesisAddress := fun _ _ => .ok true }⟩

/-- A builder whose finalized point lookups all fail with a transport error
while the pending-list fetch succeeds (with an empty list). -/
def bTransport : Builder :=
  ⟨⟨"alice", "spn1me"⟩,
    { envFresh with
        genesisValidatorQuery := errQuery "connection refused"
        vestingAccountQuery := errQuery "connection refused"
        genesisAccountQuery := errQuery "connection refused" }⟩

/-- A builder whose pending-list fetch fails. -/
def bFetchErr : Builder :=
  ⟨⟨"alice", "spn1me"⟩,
    { envFresh with requestAll := fun _ => .error "fetch failed" }⟩

/-- A builder whose local-genesis file check fails. -/
def bGenesisErr : Builder :=
  ⟨⟨"alice", "spn1me"⟩,
    { envFresh with checkGenesisAddress := fun _ _ => .error "io error" }⟩

/-- A builder whose broadcast call fails. -/
def bBroadcastErr : Builder :=
  ⟨⟨"alice", "spn1me"⟩,
    { envFresh with broadcastTx := fun _ _ => .error "broadcast failed" }⟩

/-- Replace only the pending-request oracle of a builder, leaving the
finalized-state point lookups untouched. -/
def withRequestAll (b : Builder)
    (f : Nat → Except String (List Request)) : Builder :=
  { b with env := { b.env with requestAll := f } }

/-! Helper lemmas shared by the claim theorems. -/

/-- The JSON rendering of a broadcast response is never the empty string. -/
theorem jsonOfResponse_ne_empty (r : Response) : jsonOfResponse r ≠ "" := by
  intro h
  have hlen := congrArg String.length h
  simp [jsonOfResponse, String.length_append] at hlen
  exact absurd hlen.1.1 (by decide)

/-- An account that exists in the finalized store, or appears in a
successfully fetched pending list, makes `CheckAccountExist` return `true`. -/
theorem checkAccountExist_of_record (b : Builder) (launchID : Nat) (a : String)
    (h : hasAccount b launchID a = true
       ∨ ∃ reqs, b.env.requestAll launchID = .ok reqs
           ∧ reqs.any (isAccountFor a) = true) :
    CheckAccountExist b launchID a = .ok true := by
  rcases h with h | ⟨reqs, hres, hany⟩
  · simp [CheckAccountExist, h]
  · rcases hacc : hasAccount b launchID a with _ | _
    · simp [CheckAccountExist, hacc, fetchRequests, hres, hany]
    · simp [CheckAccountExist, hacc]

/-- A validator that exists in the finalized store, or appears in a
successfully fetched pending list, makes `CheckValidatorExist` return
`true`. -/
theorem checkValidatorExist_of_record (b : Builder) (launchID : Nat) (a : String)
    (h : hasValidator b launchID a = true
       ∨ ∃ reqs, b.env.requestAll launchID = .ok reqs
           ∧ reqs.any (isValidatorFor a) = true) :
    CheckValidatorExist b launchID a = .ok true := by
  rcases h with h | ⟨reqs, hres, hany⟩
  · simp [CheckValidatorExist, h]
  · rcases hval : hasValidator b launchID a with _ | _
    · simp [CheckValidatorExist, hval, fetchRequests, hres, hany]
    · simp [CheckValidatorExist, hval]

/-! Claim theorems. -/

/-- C4: when the custom-gentx flag is set, `CreateAccountRequestMsg` builds
the account-request message unconditionally — no local-genesis or remote
state is consulted, so the result is the same for every environment. -/
theorem c4_custom_gentx_builds (b : Builder) (chainHome : String)
    (launchID : Nat) (amount : Coin) :
    CreateAccountRequestMsg b chainHome true launchID amount
      = (.ok (some (Msg.requestAddAccount b.account.address launchID
            (NewCoins amount))),
         [⟨.ongoing, "Verifying account already exists " ++ b.account.address⟩,
          ⟨.done, "Account message created"⟩]) := rfl

/-- C10: the finalized-state point lookups never surface an error — they
report existence exactly when the underlying query succeeded, so a failing
query reads as "record does not exist"; consequently the existence checkers
return an error exactly when the finalized lookup missed and the
pending-request list fetch failed with that very error. -/
theorem c10_lookup_errors_swallowed (b : Builder) (launchID : Nat)
    (a : String) (e : String) :
    hasValidator b launchID a = (b.env.genesisValidatorQuery launchID a).isOk
  ∧ hasAccount b launchID a
      = ((b.env.vestingAccountQuery launchID a).isOk
          || (b.env.genesisAccountQuery launchID a).isOk)
  ∧ (CheckAccountExist b launchID a = .error e
      ↔ hasAccount b launchID a = false
        ∧ b.env.requestAll launchID = .error e)
  ∧ (CheckValidatorExist b launchID a = .error e
      ↔ hasValidator b launchID a = false
        ∧ b.env.requestAll launchID = .error e) := by
  refine ⟨?_, ?_, ?_, ?_⟩
  · rcases hq : b.env.genesisValidatorQuery launchID a with _ | _ <;>
      simp [hasValidator, hq, Except.isOk, Except.toBool]
  · rcases hv : b.env.vestingAccountQuery launchID a with _ | _ <;>
      rcases hg : b.env.genesisAccountQuery launchID a with _ | _ <;>
        simp [hasAccount, hv, hg, Except.isOk, Except.toBool]
  · rcases hacc : hasAccount b launchID a with _ | _
    · rcases hr : b.env.requestAll launchID with e' | reqs
      · simp [CheckAccountExist, hacc, fetchRequests, hr]
      · simp [CheckAccountExist, hacc, fetchRequests, hr]
    · simp [CheckAccountExist, hacc]
  · rcases hval : hasValidator b launchID a with _ | _
    · rcases hr : b.env.requestAll launchID with e' | reqs
      · simp [CheckValidatorExist, hval, fetchRequests, hr]
      · simp [CheckValidatorExist, hval, fetchRequests, hr]
    · simp [CheckValidatorExist, hval]

/-- C3: on the non-custom-gentx path, an address already present in the
local genesis file, or already carrying a finalized or pending remote
genesis-account / vesting-account record, yields no account message and no
error — `CreateAccountRequestMsg` returns `none` with the skip event. -/
theorem c3_account_skip (b : Builder) (chainHome : String) (launchID : Nat)
    (amount : Coin)
    (h : b.env.checkGenesisAddress chainHome b.account.address = .ok true
       ∨ (b.env.checkGenesisAddress chainHome b.account.address = .ok false
          ∧ (hasAccount b launchID b.account.address = true
             ∨ ∃ reqs, b.env.requestAll launchID = .ok reqs
                 ∧ reqs.any (isAccountFor b.account.address) = true))) :
    CreateAccountRequestMsg b chainHome false launchID amount
      = (.ok none,
         [⟨.ongoing, "Verifying account already exists " ++ b.account.address⟩,
          ⟨.done, "Account message not created"⟩]) := by
  rcases h with h | ⟨hgen, hrec⟩
  · simp [CreateAccountRequestMsg, h]
  · have hc := checkAccountExist_of_record b launchID b.account.address hrec
    simp [CreateAccountRequestMsg, hgen, hc]

/-- C3 witness: `bVal`'s address is already in the local genesis file, and
the account step skips message construction without an error. -/
theorem c3_witness :
    bVal.env.checkGenesisAddress "home" bVal.account.address = .ok true
  ∧ CreateAccountRequestMsg bVal "home" false 1 ⟨"stake", 100⟩
      = (.ok none,
         [⟨.ongoing, "Verifying account already exists " ++ bVal.account.address⟩,
          ⟨.done, "Account message not created"⟩]) :=
  ⟨rfl, c3_account_skip bVal "home" 1 ⟨"stake", 100⟩ (Or.inl rfl)⟩

/-- C5 counterexample: every finalized point lookup of `bTransport` fails
with a transport error, yet both existence checkers return `.ok false` —
the query error is not propagated to the caller. -/
theorem c5_counterexample :
    bTransport.env.genesisValidatorQuery 7 "val1" = .error "connection refused"
  ∧ CheckValidatorExist bTransport 7 "val1" = .ok false
  ∧ bTransport.env.genesisAccountQuery 7 "spn1me" = .error "connection refused"
  ∧ bTransport.env.vestingAccountQuery 7 "spn1me" = .error "connection refused"
  ∧ CheckAccountExist bTransport 7 "spn1me" = .ok false :=
  ⟨rfl, rfl, rfl, rfl, rfl⟩

/-- C5 (amended): only an error of the pending-request list fetch is
propagated unchanged by `CheckAccountExist` / `CheckValidatorExist`; errors
of the finalized point lookups are swallowed — the lookup reports
non-existence instead of failing. -/
theorem c5_error_propagation (b : Builder) (launchID : Nat) (a : String)
    (e e' : String) :
    (b.env.genesisValidatorQuery launchID a = .error e
      → hasValidator b launchID a = false)
  ∧ (b.env.vestingAccountQuery launchID a = .error e
      → b.env.genesisAccountQuery launchID a = .error e'
      → hasAccount b launchID a = false)
  ∧ (hasAccount b launchID a = false
      → b.env.requestAll launchID = .error e
      → CheckAccountExist b launchID a = .error e)
  ∧ (hasValidator b launchID a = false
      → b.env.requestAll launchID = .error e
      → CheckValidatorExist b launchID a = .error e) := by
  refine ⟨?_, ?_, ?_, ?_⟩
  · intro h
    simp [hasValidator, h]
  · intro h1 h2
    simp [hasAccount, h1, h2]
  · intro h1 h2
    simp [CheckAccountExist, h1, fetchRequests, h2]
  · intro h1 h2
    simp [CheckValidatorExist, h1, fetchRequests, h2]

/-- C5 witness: with failing point lookups and a failing pending-list fetch,
both checkers return exactly the fetch error. -/
theorem c5_witness :
    bFetchErr.env.genesisValidatorQuery 1 "val1" = .error "not found"
  ∧ hasValidator bFetchErr 1 "val1" = false
  ∧ hasAccount bFetchErr 1 "spn1me" = false
  ∧ bFetchErr.env.requestAll 1 = .error "fetch failed"
  ∧ CheckAccountExist bFetchErr 1 "spn1me" = .error "fetch failed"
  ∧ CheckValidatorExist bFetchErr 1 "val1" = .error "fetch failed" :=
  ⟨rfl,
   (c5_error_propagation bFetchErr 1 "val1" "not found" "z").1 rfl,
   rfl,
   rfl,
   (c5_error_propagation bFetchErr 1 "spn1me" "fetch failed" "z").2.2.1 rfl rfl,
   (c5_error_propagation bFetchErr 1 "val1" "fetch failed" "z").2.2.2 rfl rfl⟩

/-- C7 counterexample: when the local-genesis check fails, the account-check
path emits only the ongoing event — one status event, not two. -/
theorem c7_counterexample :
    (CreateAccountRequestMsg bGenesisErr "home" false 3 ⟨"stake", 5⟩).1
      = .error "io error"
  ∧ (CreateAccountRequestMsg bGenesisErr "home" false 3 ⟨"stake", 5⟩).2.length
      = 1 :=
  ⟨rfl, rfl⟩

/-- C7 (amended): on every invocation of the account-check path that returns
no error, exactly two status events are emitted — the ongoing verification
event followed by one done event — whichever branch is taken. -/
theorem c7_two_events (b : Builder) (chainHome : String) (customGentx : Bool)
    (launchID : Nat) (amount : Coin) (o : Option Msg)
    (h : (CreateAccountRequestMsg b chainHome customGentx launchID amount).1
      = .ok o) :
    ∃ m, (CreateAccountRequestMsg b chainHome customGentx launchID amount).2
      = [⟨.ongoing, "Verifying account already exists " ++ b.account.address⟩,
         ⟨.done, m⟩] := by
  cases customGentx
  · rcases hgen : b.env.checkGenesisAddress chainHome b.account.address
        with e | bb
    · simp [CreateAccountRequestMsg, hgen] at h
    · rcases bb with _ | _
      · rcases hc : CheckAccountExist b launchID b.account.address with e | cb
        · simp [CreateAccountRequestMsg, hgen, hc] at h
        · rcases cb with _ | _
          · exact ⟨"Account message created",
              by simp [CreateAccountRequestMsg, hgen, hc]⟩
          · exact ⟨"Account message not created",
              by simp [CreateAccountRequestMsg, hgen, hc]⟩
      · exact ⟨"Account message not created",
          by simp [CreateAccountRequestMsg, hgen]⟩
  · exact ⟨"Account message created", by simp [CreateAccountRequestMsg]⟩

/-- C7 witness: a skipped (not-created) run still emits the ongoing event
followed by one done event. -/
theorem c7_witness :
    (CreateAccountRequestMsg bAllOk "home" false 1 ⟨"stake", 100⟩).1 = .ok none
  ∧ ∃ m, (CreateAccountRequestMsg bAllOk "home" false 1 ⟨"stake", 100⟩).2
      = [⟨.ongoing,
            "Verifying account already exists " ++ bAllOk.account.address⟩,
         ⟨.done, m⟩] :=
  ⟨rfl, c7_two_events bAllOk "home" false 1 ⟨"stake", 100⟩ none rfl⟩

/-- C8: when the finalized point lookup reports existence, the existence
checkers return `true` whatever the pending-request oracle would answer —
the pending list is neither fetched nor scanned. -/
theorem c8_short_circuit (b : Builder) (launchID : Nat) (a v : String)
    (f : Nat → Except String (List Request))
    (hA : hasAccount b launchID a = true)
    (hV : hasValidator b launchID v = true) :
    CheckAccountExist (withRequestAll b f) launchID a = .ok true
  ∧ CheckValidatorExist (withRequestAll b f) launchID v = .ok true := by
  have hA' : hasAccount (withRequestAll b f) launchID a = true := hA
  have hV' : hasValidator (withRequestAll b f) launchID v = true := hV
  exact ⟨by simp [CheckAccountExist, hA'], by simp [CheckValidatorExist, hV']⟩

/-- C8 witness: `bAllOk`'s finalized lookups hit, and the checkers return
`true` even when the pending-request oracle is replaced by a failing one. -/
theorem c8_witness :
    hasAccount bAllOk 1 "spn1me" = true
  ∧ hasValidator bAllOk 1 "spn1me" = true
  ∧ (CheckAccountExist
        (withRequestAll bAllOk fun _ => .error "network down") 1 "spn1me"
        = .ok true
     ∧ CheckValidatorExist
        (withRequestAll bAllOk fun _ => .error "network down") 1 "spn1me"
        = .ok true) :=
  ⟨rfl, rfl,
   c8_short_circuit bAllOk 1 "spn1me" "spn1me"
     (fun _ => .error "network down") rfl rfl⟩

/-- C2: when a validator record already exists — in the finalized store or
in the pending queue — `CreateValidatorRequestMsg` fails with the conflict
error naming the address, `Join` broadcasts nothing, and whenever the
account step itself succeeds `Join` returns that same conflict error. -/
theorem c2_validator_conflict (b : Builder) (launchID : Nat)
    (chainHome peer valAddress : String) (customGentx : Bool)
    (gentx consPubKey : List Nat) (selfDelegation amount : Coin)
    (h : hasValidator b launchID valAddress = true
       ∨ ∃ reqs, b.env.requestAll launchID = .ok reqs
           ∧ reqs.any (isValidatorFor valAddress) = true) :
    CreateValidatorRequestMsg b launchID peer valAddress gentx consPubKey
        selfDelegation
      = .error ("validator already exist: " ++ valAddress)
  ∧ (Join b launchID chainHome peer valAddress customGentx gentx consPubKey
        selfDelegation amount).2.2 = []
  ∧ ∀ o, (CreateAccountRequestMsg b chainHome customGentx launchID amount).1
        = .ok o
      → (Join b launchID chainHome peer valAddress customGentx gentx
            consPubKey selfDelegation amount).1
          = .error ("validator already exist: " ++ valAddress) := by
  have hex := checkValidatorExist_of_record b launchID valAddress h
  have hmsg : CreateValidatorRequestMsg b launchID peer valAddress gentx
      consPubKey selfDelegation
      = .error ("validator already exist: " ++ valAddress) := by
    simp [CreateValidatorRequestMsg, hex]
  refine ⟨hmsg, ?_, ?_⟩
  · rcases hacc : (CreateAccountRequestMsg b chainHome customGentx launchID
        amount).1 with e | o
    · simp [Join, hacc]
    · simp [Join, hacc, hmsg]
  · intro o ho
    simp [Join, ho, hmsg]

/-- C2 witness: `bVal`'s validator already exists in the finalized store;
the conflict error is returned by the validator step and by `Join`, and the
broadcast log stays empty. -/
theorem c2_witness :
    hasValidator bVal 1 "val1" = true
  ∧ (CreateAccountRequestMsg bVal "home" false 1 ⟨"stake", 100⟩).1 = .ok none
  ∧ CreateValidatorRequestMsg bVal 1 "p2p" "val1" [1] [2] ⟨"stake", 50⟩
      = .error ("validator already exist: " ++ "val1")
  ∧ (Join bVal 1 "home" "p2p" "val1" false [1] [2] ⟨"stake", 50⟩
        ⟨"stake", 100⟩).2.2 = []
  ∧ (Join bVal 1 "home" "p2p" "val1" false [1] [2] ⟨"stake", 50⟩
        ⟨"stake", 100⟩).1
      = .error ("validator already exist: " ++ "val1") :=
  ⟨rfl, rfl,
   (c2_validator_conflict bVal 1 "home" "p2p" "val1" false [1] [2]
      ⟨"stake", 50⟩ ⟨"stake", 100⟩ (Or.inl rfl)).1,
   (c2_validator_conflict bVal 1 "home" "p2p" "val1" false [1] [2]
      ⟨"stake", 50⟩ ⟨"stake", 100⟩ (Or.inl rfl)).2.1,
   (c2_validator_conflict bVal 1 "home" "p2p" "val1" false [1] [2]
      ⟨"stake", 50⟩ ⟨"stake", 100⟩ (Or.inl rfl)).2.2 none rfl⟩

/-- C6: a `Join` run that ends in an error exposes no partial success —
either the error arose before any broadcast call (empty broadcast log), or
all built messages were broadcast together in one batch. -/
theorem c6_no_partial_success (b : Builder) (launchID : Nat)
    (chainHome peer valAddress : String) (customGentx : Bool)
    (gentx consPubKey : List Nat) (selfDelegation amount : Coin) (e : String)
    (_h : (Join b launchID chainHome peer valAddress customGentx gentx
        consPubKey selfDelegation amount).1 = .error e) :
    (Join b launchID chainHome peer valAddress customGentx gentx consPubKey
        selfDelegation amount).2.2 = []
  ∨ ∃ accOpt validatorMsg,
      (CreateAccountRequestMsg b chainHome customGentx launchID amount).1
        = .ok accOpt
    ∧ CreateValidatorRequestMsg b launchID peer valAddress gentx consPubKey
        selfDelegation = .ok validatorMsg
    ∧ (Join b launchID chainHome peer valAddress customGentx gentx consPubKey
        selfDelegation amount).2.2 = [accOpt.toList ++ [validatorMsg]] := by
  rcases hacc : (CreateAccountRequestMsg b chainHome customGentx launchID
      amount).1 with e1 | accOpt
  · left
    simp [Join, hacc]
  · rcases hval : CreateValidatorRequestMsg b launchID peer valAddress gentx
        consPubKey selfDelegation with e2 | vmsg
    · left
      simp [Join, hacc, hval]
    · right
      refine ⟨accOpt, vmsg, rfl, rfl, ?_⟩
      rcases hb : b.env.broadcastTx b.account.name (accOpt.toList ++ [vmsg])
          with e3 | resp
      · simp [Join, hacc, hval, hb]
      · rcases hm : b.env.marshalJSONErr resp with _ | e4
        · simp [Join, hacc, hval, hb, hm]
        · simp [Join, hacc, hval, hb, hm]

/-- C6 witness: a failing broadcast makes `Join` return the broadcast error,
and the log shows the one full batch that was submitted. -/
theorem c6_witness :
    (Join bBroadcastErr 1 "home" "p2p" "val1" false [1] [2] ⟨"stake", 50⟩
        ⟨"stake", 100⟩).1 = .error "broadcast failed"
  ∧ ((Join bBroadcastErr 1 "home" "p2p" "val1" false [1] [2] ⟨"stake", 50⟩
        ⟨"stake", 100⟩).2.2 = []
     ∨ ∃ accOpt validatorMsg,
        (CreateAccountRequestMsg bBroadcastErr "home" false 1
            ⟨"stake", 100⟩).1 = .ok accOpt
      ∧ CreateValidatorRequestMsg bBroadcastErr 1 "p2p" "val1" [1] [2]
          ⟨"stake", 50⟩ = .ok validatorMsg
      ∧ (Join bBroadcastErr 1 "home" "p2p" "val1" false [1] [2] ⟨"stake", 50⟩
          ⟨"stake", 100⟩).2.2 = [accOpt.toList ++ [validatorMsg]]) :=
  ⟨rfl,
   c6_no_partial_success bBroadcastErr 1 "home" "p2p" "val1" false [1] [2]
     ⟨"stake", 50⟩ ⟨"stake", 100⟩ "broadcast failed" rfl⟩

/-- C9: every batch that `Join` hands to the broadcaster ends with the
validator message, and when an account message was built the batch is
exactly the account message followed by the validator message. -/
theorem c9_validator_last (b : Builder) (launchID : Nat)
    (chainHome peer valAddress : String) (customGentx : Bool)
    (gentx consPubKey : List Nat) (selfDelegation amount : Coin)
    (l : List Msg)
    (h : (Join b launchID chainHome peer valAddress customGentx gentx
        consPubKey selfDelegation amount).2.2 = [l]) :
    ∃ validatorMsg,
      CreateValidatorRequestMsg b launchID peer valAddress gentx consPubKey
          selfDelegation = .ok validatorMsg
    ∧ l.getLast? = some validatorMsg
    ∧ ∀ a, (CreateAccountRequestMsg b chainHome customGentx launchID
            amount).1 = .ok (some a)
        → l = [a, validatorMsg] := by
  rcases hacc : (CreateAccountRequestMsg b chainHome customGentx launchID
      amount).1 with e1 | accOpt
  · simp [Join, hacc] at h
  · rcases hval : CreateValidatorRequestMsg b launchID peer valAddress gentx
        consPubKey selfDelegation with e2 | vmsg
    · simp [Join, hacc, hval] at h
    · have hl : l = accOpt.toList ++ [vmsg] := by
        rcases hb : b.env.broadcastTx b.account.name (accOpt.toList ++ [vmsg])
            with e3 | resp
        · simp [Join, hacc, hval, hb] at h
          exact h.symm
        · rcases hm : b.env.marshalJSONErr resp with _ | e4
          · simp [Join, hacc, hval, hb, hm] at h
            exact h.symm
          · simp [Join, hacc, hval, hb, hm] at h
            exact h.symm
      subst hl
      refine ⟨vmsg, rfl, ?_, ?_⟩
      · rcases accOpt with _ | a <;> rfl
      · intro a ha
        have haeq : accOpt = some a := by
          simpa using ha
        simp [haeq]

/-- C9 witness: on a fresh successful run, the broadcast batch is the
account message followed by the validator message, the latter last. -/
theorem c9_witness :
    (Join bFresh 1 "home" "p2p" "val1" false [1] [2] ⟨"stake", 50⟩
        ⟨"stake", 100⟩).2.2
      = [[Msg.requestAddAccount "spn1me" 1 (NewCoins ⟨"stake", 100⟩),
          Msg.requestAddValidator "val1" 1 [1] [2] ⟨"stake", 50⟩ "p2p"]]
  ∧ ∃ validatorMsg,
      CreateValidatorRequestMsg bFresh 1 "p2p" "val1" [1] [2] ⟨"stake", 50⟩
        = .ok validatorMsg
    ∧ ([Msg.requestAddAccount "spn1me" 1 (NewCoins ⟨"stake", 100⟩),
        Msg.requestAddValidator "val1" 1 [1] [2] ⟨"stake", 50⟩
          "p2p"]).getLast? = some validatorMsg
    ∧ ∀ a, (CreateAccountRequestMsg bFresh "home" false 1
            ⟨"stake", 100⟩).1 = .ok (some a)
        → [Msg.requestAddAccount "spn1me" 1 (NewCoins ⟨"stake", 100⟩),
           Msg.requestAddValidator "val1" 1 [1] [2] ⟨"stake", 50⟩ "p2p"]
          = [a, validatorMsg] :=
  ⟨rfl,
   c9_validator_last bFresh 1 "home" "p2p" "val1" false [1] [2]
     ⟨"stake", 50⟩ ⟨"stake", 100⟩
     [Msg.requestAddAccount "spn1me" 1 (NewCoins ⟨"stake", 100⟩),
      Msg.requestAddValidator "val1" 1 [1] [2] ⟨"stake", 50⟩ "p2p"] rfl⟩

/-- C1: for a fresh address — absent from local genesis, with no finalized
or pending account or validator record — and with broadcast and
serialization succeeding, `Join` builds exactly one account message and one
validator message, broadcasts them as a single transaction, emits the four
status events in order, and returns the nonempty serialized response with no
error. -/
theorem c1_join_fresh (b : Builder) (launchID : Nat)
    (chainHome peer valAddress : String) (customGentx : Bool)
    (gentx consPubKey : List Nat) (selfDelegation amount : Coin)
    (reqs : List Request) (resp : Response)
    (hGen : b.env.checkGenesisAddress chainHome b.account.address = .ok false)
    (hAccFin : hasAccount b launchID b.account.address = false)
    (hValFin : hasValidator b launchID valAddress = false)
    (hReqs : b.env.requestAll launchID = .ok reqs)
    (hNoPendA : reqs.any (isAccountFor b.account.address) = false)
    (hNoPendV : reqs.any (isValidatorFor valAddress) = false)
    (hB : b.env.broadcastTx b.account.name
        [Msg.requestAddAccount b.account.address launchID (NewCoins amount),
         Msg.requestAddValidator valAddress launchID gentx consPubKey
           selfDelegation peer] = .ok resp)
    (hM : b.env.marshalJSONErr resp = none) :
    Join b launchID chainHome peer valAddress customGentx gentx consPubKey
        selfDelegation amount
      = (.ok (jsonOfResponse resp),
         [⟨.ongoing, "Verifying account already exists " ++ b.account.address⟩,
          ⟨.done, "Account message created"⟩,
          ⟨.ongoing, "Broadcasting transactions"⟩,
          ⟨.done, "Transactions broadcasted"⟩],
         [[Msg.requestAddAccount b.account.address launchID (NewCoins amount),
           Msg.requestAddValidator valAddress launchID gentx consPubKey
             selfDelegation peer]])
  ∧ jsonOfResponse resp ≠ "" := by
  have hCA : CheckAccountExist b launchID b.account.address = .ok false := by
    simp [CheckAccountExist, hAccFin, fetchRequests, hReqs, hNoPendA]
  have hCV : CheckValidatorExist b launchID valAddress = .ok false := by
    simp [CheckValidatorExist, hValFin, fetchRequests, hReqs, hNoPendV]
  have hAccMsg : CreateAccountRequestMsg b chainHome customGentx launchID
      amount
      = (.ok (some (Msg.requestAddAccount b.account.address launchID
            (NewCoins amount))),
         [⟨.ongoing, "Verifying account already exists " ++ b.account.address⟩,
          ⟨.done, "Account message created"⟩]) := by
    cases customGentx
    · simp [CreateAccountRequestMsg, hGen, hCA]
    · rfl
  have hValMsg : CreateValidatorRequestMsg b launchID peer valAddress gentx
      consPubKey selfDelegation
      = .ok (Msg.requestAddValidator valAddress launchID gentx consPubKey
          selfDelegation peer) := by
    simp [CreateValidatorRequestMsg, hCV]
  refine ⟨?_, jsonOfResponse_ne_empty resp⟩
  simp [Join, hAccMsg, hValMsg, hB, hM]

/-- C1 witness: the fresh builder `bFresh` joins successfully, broadcasting
the account and validator messages as one batch and returning the nonempty
serialized response. -/
theorem c1_witness :
    hasAccount bFresh 1 bFresh.account.address = false
  ∧ hasValidator bFresh 1 "val1" = false
  ∧ (Join bFresh 1 "home" "p2p" "val1" false [1] [2] ⟨"stake", 50⟩
        ⟨"stake", 100⟩
      = (.ok (jsonOfResponse ⟨"ABCD"⟩),
         [⟨.ongoing, "Verifying account already exists "
            ++ bFresh.account.address⟩,
          ⟨.done, "Account message created"⟩,
          ⟨.ongoing, "Broadcasting transactions"⟩,
          ⟨.done, "Transactions broadcasted"⟩],
         [[Msg.requestAddAccount bFresh.account.address 1
             (NewCoins ⟨"stake", 100⟩),
           Msg.requestAddValidator "val1" 1 [1] [2] ⟨"stake", 50⟩ "p2p"]])
     ∧ jsonOfResponse ⟨"ABCD"⟩ ≠ "") :=
  ⟨rfl, rfl,
   c1_join_fresh bFresh 1 "home" "p2p" "val1" false [1] [2] ⟨"stake", 50⟩
     ⟨"stake", 100⟩ [] ⟨"ABCD"⟩ rfl rfl rfl rfl rfl rfl rfl rfl⟩

end Network
